import Mathlib

/-!
Verification of the Email-Agent repository against its specification.

The Python sources are embedded shallowly: dictionaries with string keys
become either association lists or functions into `Option`, message records
become a structure of optional fields (a missing dictionary key is `none`),
and the regular-expression matching of the rule classifier is compiled into
an executable matcher over `List Char`.
-/

set_option maxHeartbeats 1000000

namespace EmailAgent

/-! ## String utilities mirroring the Python primitives -/

/-- Python `needle in hay` on lists of characters: `needle` occurs as a
contiguous sublist of `hay` (the empty needle occurs everywhere). -/
def listHasSub (needle : List Char) : List Char → Bool
  | [] => needle.isEmpty
  | c :: t => needle.isPrefixOf (c :: t) || listHasSub needle t

/-- Python `needle in hay` for strings. -/
def pyContains (hay needle : String) : Bool :=
  listHasSub needle.data hay.data

/-- Python `s.lower()` (ASCII case folding, which covers every input the
program ever builds). -/
def pyLower (s : String) : String :=
  String.mk (s.data.map Char.toLower)

/-- Python `s.endswith(p)`. -/
def pyEndsWith (s p : String) : Bool :=
  p.data.isSuffixOf s.data

/-- Python `s.strip()`: drop whitespace from both ends. -/
def pyStrip (s : String) : String :=
  String.mk (((s.data.dropWhile Char.isWhitespace).reverse.dropWhile Char.isWhitespace).reverse)

/-! ## The message record

`telegram_bot.py` reads email records with `dict.get(key, default)`, so every
field is optional; `none` models an absent key. -/

structure EmailData where
  id : Option String := none
  subject : Option String := none
  sender : Option String := none
  snippet : Option String := none
  body : Option String := none
  ai_category : Option String := none
  is_meeting_request : Option Bool := none
deriving DecidableEq

/-! ## SmartEmailFilter (`telegram_bot.py`, lines 314-363) -/

/-- `SmartEmailFilter.urgent_keywords`. -/
def urgent_keywords : List String :=
  ["urgent", "action required", "deadline", "expires", "verify", "security"]

/-- The educational-sender substrings checked by `should_notify`. -/
def edu_domains : List String :=
  [".edu", "university", "college", "school"]

/-- `SmartEmailFilter.should_notify` (`telegram_bot.py`, lines 322-347). -/
def should_notify (e : EmailData) : Bool :=
  let category := e.ai_category.getD ""
  let subject := pyLower (e.subject.getD "")
  let sender := pyLower (e.sender.getD "")
  let is_meeting := e.is_meeting_request.getD false
  if category = "Important" then true
  else if is_meeting || category = "Meetings" then true
  else if urgent_keywords.any (fun k => pyContains subject k) then true
  else if edu_domains.any (fun d => pyContains sender d) then true
  else false

/-- `SmartEmailFilter.get_notification_priority` (`telegram_bot.py`,
lines 349-363). -/
def get_notification_priority (e : EmailData) : String :=
  let subject := pyLower (e.subject.getD "")
  let category := e.ai_category.getD ""
  if ["urgent", "deadline", "expires today", "action required"].any
      (fun k => pyContains subject k) then "high"
  else if category = "Important" || category = "Meetings"
      || e.is_meeting_request.getD false then "medium"
  else "low"

/-! ## Claims C1-C3 -/

/-- Claim C1: every message whose category is "Important" is notified,
regardless of every other field. -/
theorem C1_important_always_notifies (e : EmailData)
    (h : e.ai_category = some "Important") :
    should_notify e = true := by
  simp [should_notify, h]

/-- Witness for C1 at a concrete record. -/
theorem C1_important_always_notifies_witness :
    ({ ai_category := some "Important" } : EmailData).ai_category = some "Important" ∧
      should_notify { ai_category := some "Important" } = true :=
  ⟨rfl, C1_important_always_notifies { ai_category := some "Important" } rfl⟩

/-- A concrete record refuting claim C2 as stated: category "Personal", no
urgent keyword in the subject, no meeting flag, and a sender that does not
end in ".edu" - yet `should_notify` returns true, because the code tests
the educational substrings "university"/"college"/"school" (and ".edu"
anywhere), not only an ".edu" ending. -/
def c2_email : EmailData :=
  { subject := some "hello", sender := some "admissions@college.com",
    snippet := some "", ai_category := some "Personal",
    is_meeting_request := some false }

/-- Claim C2 is false as stated: `c2_email` satisfies every hypothesis of
the claim (category in the silent set, no urgent keyword, no meeting flag,
sender does not end in ".edu") but is notified. -/
theorem C2_counterexample :
    c2_email.ai_category = some "Personal" ∧
      urgent_keywords.any
        (fun k => pyContains (pyLower (c2_email.subject.getD "")) k) = false ∧
      c2_email.is_meeting_request = some false ∧
      pyEndsWith (pyLower (c2_email.sender.getD "")) ".edu" = false ∧
      should_notify c2_email = true := by
  decide

/-- Claim C2 amended: the silent categories stay silent provided the
lowercased sender contains none of the four educational substrings
".edu"/"university"/"college"/"school" (substring containment, not merely
an ".edu" ending). -/
theorem C2_amended_silent_categories (e : EmailData)
    (hcat : e.ai_category = some "Newsletters" ∨ e.ai_category = some "Promotions" ∨
      e.ai_category = some "Personal")
    (hurg : urgent_keywords.any
      (fun k => pyContains (pyLower (e.subject.getD "")) k) = false)
    (hmeet : e.is_meeting_request.getD false = false)
    (hedu : edu_domains.any
      (fun d => pyContains (pyLower (e.sender.getD "")) d) = false) :
    should_notify e = false := by
  rcases hcat with hcat | hcat | hcat <;>
    simp [should_notify, hcat, hurg, hmeet, hedu]

/-- Witness for the amended C2 at a concrete record. -/
theorem C2_amended_silent_categories_witness :
    should_notify
      { subject := some "weekly digest", sender := some "news@example.com",
        ai_category := some "Newsletters" } = false :=
  C2_amended_silent_categories
    { subject := some "weekly digest", sender := some "news@example.com",
      ai_category := some "Newsletters" }
    (Or.inl rfl) (by decide) (by decide) (by decide)

/-- A concrete record refuting claim C3 as stated: the category is absent,
yet the message is notified because its meeting flag is set. -/
def c3_email : EmailData :=
  { subject := some "hi", is_meeting_request := some true }

/-- Claim C3 is false as stated: an unclassified message (absent category)
can still be notified, e.g. through the meeting flag. -/
theorem C3_counterexample :
    c3_email.ai_category = none ∧ should_notify c3_email = true := by
  decide

/-- Claim C3 amended: an unclassified message is not notified unless one of
the category-independent rules fires (meeting flag, urgent keyword in the
subject, educational sender pattern). -/
theorem C3_amended_unclassified_silent (e : EmailData)
    (hcat : e.ai_category = none)
    (hmeet : e.is_meeting_request.getD false = false)
    (hurg : urgent_keywords.any
      (fun k => pyContains (pyLower (e.subject.getD "")) k) = false)
    (hedu : edu_domains.any
      (fun d => pyContains (pyLower (e.sender.getD "")) d) = false) :
    should_notify e = false := by
  simp [should_notify, hcat, hurg, hmeet, hedu]

/-- Witness for the amended C3 at a concrete record. -/
theorem C3_amended_unclassified_silent_witness :
    should_notify { subject := some "lunch" } = false :=
  C3_amended_unclassified_silent { subject := some "lunch" }
    rfl (by decide) (by decide) (by decide)

/-! ## Python dictionaries as partial maps

A Python dict with string keys is embedded as a function into `Option`:
`dict.get(k)` is application, assignment updates one key, `del` clears it. -/

def Dict (V : Type) : Type := String → Option V

/-- `d.get(k)` / `d[k]`. -/
def dictGet {V : Type} (m : Dict V) (k : String) : Option V := m k

/-- `d[k] = v`. -/
def dictSet {V : Type} (m : Dict V) (k : String) (v : V) : Dict V :=
  fun x => if x = k then some v else m x

/-- `del d[k]`. -/
def dictDel {V : Type} (m : Dict V) (k : String) : Dict V :=
  fun x => if x = k then none else m x

/-- `{}` - the empty dict. -/
def dictEmpty {V : Type} : Dict V := fun _ => none

/-! ## TelegramEmailHandler state (`telegram_handler.py`)

The handler keeps two in-memory dicts, `email_cache` and
`pending_responses`, each persisted to its own pickle file by
`_save_cache` and re-read by `_load_cache` (lines 38-64).  A pickle file
holds the serialized dict; `none` models a missing file. -/

structure HandlerState where
  email_cache : Dict EmailData
  pending_responses : Dict String
  cache_file : Option (Dict EmailData)
  responses_file : Option (Dict String)

/-- `_load_cache` (lines 46-56): the file contents, or `{}` when the file
is missing. -/
def load_cache {V : Type} (file : Option (Dict V)) : Dict V :=
  match file with
  | some d => d
  | none => dictEmpty

/-- `_handle_ignore_action` (lines 317-324): delete the key from
`email_cache` (only) and persist that dict. -/
def handle_ignore_action (st : HandlerState) (email_id : String) : HandlerState :=
  match dictGet st.email_cache email_id with
  | some _ =>
      let cache := dictDel st.email_cache email_id
      { st with email_cache := cache, cache_file := some cache }
  | none => st

/-- `_handle_done_action` (lines 326-333): same cleanup as ignore. -/
def handle_done_action (st : HandlerState) (email_id : String) : HandlerState :=
  handle_ignore_action st email_id

/-- `_handle_cancel_action` (lines 381-388): delete the key from
`pending_responses` (only) and persist that dict. -/
def handle_cancel_action (st : HandlerState) (email_id : String) : HandlerState :=
  match dictGet st.pending_responses email_id with
  | some _ =>
      let pending := dictDel st.pending_responses email_id
      { st with pending_responses := pending, responses_file := some pending }
  | none => st

/-- `_handle_send_action` (lines 335-379).  The Gmail client's
availability and the outcome of `send_email` are the two external inputs;
a falsy (empty) pending response aborts just like a missing one.  On the
success path both mappings drop the key and are persisted; every other
path leaves the state unchanged (errors are caught and reported). -/
def handle_send_action (st : HandlerState) (email_id : String)
    (gmail_available send_ok : Bool) : HandlerState :=
  match dictGet st.email_cache email_id, dictGet st.pending_responses email_id with
  | some _, some r =>
      if r = "" then st
      else if !gmail_available then st
      else if send_ok then
        let cache := dictDel st.email_cache email_id
        let pending := dictDel st.pending_responses email_id
        { email_cache := cache, pending_responses := pending,
          cache_file := some cache, responses_file := some pending }
      else st
  | _, _ => st

/-! ## Claims C4-C5 -/

/-- A state holding both a cached email and a pending response for the
same key, as the code produces after a notification followed by a reply
action. -/
def c4_state : HandlerState :=
  { email_cache := dictSet dictEmpty "m1" { subject := some "hi" },
    pending_responses := dictSet dictEmpty "m1" "Sure, works for me.",
    cache_file := none, responses_file := none }

/-- Claim C4 is false as stated: after the terminal "ignore" action
completes for key "m1", the pending-response mapping still returns the
stored response for "m1" - `_handle_ignore_action` clears only the
email-snapshot mapping. -/
theorem C4_counterexample :
    dictGet (handle_ignore_action c4_state "m1").pending_responses "m1" =
      some "Sure, works for me." := by
  decide

/-- Claim C4 amended: each terminal action clears exactly the mapping it
owns - ignore (and done) remove the key from the email-snapshot mapping,
cancel removes it from the pending-response mapping, and a successful send
removes it from both; the other mapping may retain its entry. -/
theorem C4_amended_terminal_actions (st : HandlerState) (k : String) :
    dictGet (handle_ignore_action st k).email_cache k = none ∧
    dictGet (handle_done_action st k).email_cache k = none ∧
    dictGet (handle_cancel_action st k).pending_responses k = none ∧
    (∀ g s : Bool, ∀ e : EmailData, ∀ r : String,
      dictGet st.email_cache k = some e →
      dictGet st.pending_responses k = some r →
      r ≠ "" → g = true → s = true →
      dictGet (handle_send_action st k g s).email_cache k = none ∧
        dictGet (handle_send_action st k g s).pending_responses k = none) := by
  refine ⟨?_, ?_, ?_, ?_⟩
  · unfold handle_ignore_action
    cases h : dictGet st.email_cache k with
    | none => simpa [dictGet] using h
    | some e => simp [dictGet, dictDel]
  · unfold handle_done_action handle_ignore_action
    cases h : dictGet st.email_cache k with
    | none => simpa [dictGet] using h
    | some e => simp [dictGet, dictDel]
  · unfold handle_cancel_action
    cases h : dictGet st.pending_responses k with
    | none => simpa [dictGet] using h
    | some r => simp [dictGet, dictDel]
  · intro g s e r he hr hne hg hs
    simp only [dictGet] at he hr
    simp [handle_send_action, dictGet, dictDel, he, hr, hne, hg, hs]

/-- Witness for the amended C4 at the concrete state `c4_state`. -/
theorem C4_amended_terminal_actions_witness :
    dictGet (handle_ignore_action c4_state "m1").email_cache "m1" = none ∧
      dictGet
        (handle_send_action c4_state "m1" true true).pending_responses "m1" = none :=
  ⟨(C4_amended_terminal_actions c4_state "m1").1,
    ((C4_amended_terminal_actions c4_state "m1").2.2.2 true true
      { subject := some "hi" } "Sure, works for me."
      (by decide) (by decide) (by decide) rfl rfl).2⟩

/-- One persisted cache as used by `process_important_emails` (lines
66-88): the in-memory dict plus its pickle file. -/
structure CacheStore (V : Type) where
  mem : Dict V
  file : Option (Dict V)

/-- The put step of `process_important_emails` (lines 75-77):
`self.email_cache[email_id] = email` followed by `_save_cache`. -/
def cache_put {V : Type} (st : CacheStore V) (k : String) (v : V) : CacheStore V :=
  let mem := dictSet st.mem k v
  { mem := mem, file := some mem }

/-- Reloading the mapping from the backing file with `_load_cache`
(lines 46-56, also the reload at line 148). -/
def cache_reload {V : Type} (st : CacheStore V) : CacheStore V :=
  { st with mem := load_cache st.file }

/-- `self.email_cache.get(k)`. -/
def cache_get {V : Type} (st : CacheStore V) (k : String) : Option V :=
  dictGet st.mem k

/-- Claim C5: the cache round-trips through its backing file -
`put(k, v); reload(); get(k)` yields exactly `v`. -/
theorem C5_cache_round_trip {V : Type} (st : CacheStore V) (k : String) (v : V) :
    cache_get (cache_reload (cache_put st k v)) k = some v := by
  simp [cache_get, cache_reload, cache_put, load_cache, dictGet, dictSet]

/-! ## A matcher for the rule patterns (`hybrid_agents.py`, lines 34-65)

Each of the classifier's regular expressions is an alternation of simple
sequences built from literal characters, an optional character (`s?`),
whitespace runs (`\s+`, `\s*`), the word-boundary assertion `\b` and the
end anchor `$`.  `RItem` is that item language; a pattern is a list of
alternatives, each a list of items, and `re.search` is an exhaustive
backtracking search over all start positions. -/

inductive RItem where
  | lit (c : Char)
  | opt (c : Char)
  | cls (p : Char → Bool) (atLeastOne : Bool)
  | wb
  | eos

/-- Python `\w` (ASCII part, which covers the classifier's inputs). -/
def isWordChar (c : Char) : Bool := c.isAlphanum || c = '_'

/-- Word-ness of a position just outside or at a character; the ends of
the string count as non-word. -/
def wordAt : Option Char → Bool
  | some c => isWordChar c
  | none => false

/-- Match a sequence of items against a prefix of `rest`, where `prev` is
the character just before the current position.  The fuel is a strict
bound on the recursion depth; `matchItemsTop` supplies enough of it, so
the search is exhaustive. -/
def matchItems : Nat → List RItem → Option Char → List Char → Bool
  | 0, _, _, _ => false
  | _ + 1, [], _, _ => true
  | f + 1, RItem.lit c :: is, _, x :: xs => x = c && matchItems f is (some x) xs
  | _ + 1, RItem.lit _ :: _, _, [] => false
  | f + 1, RItem.opt c :: is, prev, rest =>
      matchItems f is prev rest ||
        (match rest with
         | x :: xs => x = c && matchItems f is (some x) xs
         | [] => false)
  | f + 1, RItem.cls p one :: is, prev, rest =>
      (!one && matchItems f is prev rest) ||
        (match rest with
         | x :: xs => p x && matchItems f (RItem.cls p false :: is) (some x) xs
         | [] => false)
  | f + 1, RItem.wb :: is, prev, rest =>
      (wordAt prev != wordAt rest.head?) && matchItems f is prev rest
  | f + 1, RItem.eos :: is, prev, rest =>
      (rest.isEmpty || rest = ['\n']) && matchItems f is prev rest

/-- Every recursive step of `matchItems` shrinks `rest` or, keeping
`rest`, shrinks the item list, so this fuel never runs out. -/
def matchItemsTop (is : List RItem) (prev : Option Char) (rest : List Char) : Bool :=
  matchItems (is.length + rest.length + 1) is prev rest

/-- `re.search`: try the alternatives at every start position. -/
def reSearch (alts : List (List RItem)) : Option Char → List Char → Bool
  | prev, [] => alts.any (fun is => matchItemsTop is prev [])
  | prev, x :: xs =>
      alts.any (fun is => matchItemsTop is prev (x :: xs)) ||
        reSearch alts (some x) xs

/-- Whether one pattern (an alternation of item sequences) matches
anywhere in the text. -/
def patMatches (alts : List (List RItem)) (text : List Char) : Bool :=
  reSearch alts none text

/-- A sequence of literal characters. -/
def litSeq (s : String) : List RItem := s.data.map RItem.lit

/-- `\s+`. -/
def wsPlus : RItem := RItem.cls Char.isWhitespace true

/-- `\s*`. -/
def wsStar : RItem := RItem.cls Char.isWhitespace false

/-- Wrap each alternative of a group in the `\b ( ... ) \b` of the source
patterns. -/
def wordAlts (ws : List (List RItem)) : List (List RItem) :=
  ws.map (fun w => RItem.wb :: (w ++ [RItem.wb]))

/-- The apostrophe character (escaped in the source patterns). -/
def apos : Char := Char.ofNat 39

/-- `self.promotion_patterns` (lines 34-38). -/
def promotion_patterns : List (List (List RItem)) :=
  [wordAlts [litSeq "offer", litSeq "discount", litSeq "sale", litSeq "promo",
     litSeq "deal", litSeq "save", litSeq "free",
     litSeq "limited" ++ wsPlus :: litSeq "time",
     litSeq "special" ++ wsPlus :: litSeq "price",
     RItem.lit '%' :: wsStar :: litSeq "off"],
   wordAlts [litSeq "buy" ++ wsPlus :: litSeq "now",
     litSeq "shop" ++ wsPlus :: litSeq "now",
     litSeq "order" ++ wsPlus :: litSeq "now",
     litSeq "get" ++ wsPlus :: litSeq "yours",
     litSeq "upgrade" ++ wsPlus :: litSeq "now"],
   wordAlts [litSeq "black" ++ wsPlus :: litSeq "friday",
     litSeq "cyber" ++ wsPlus :: litSeq "monday",
     litSeq "flash" ++ wsPlus :: litSeq "sale",
     litSeq "clearance"]]

/-- `self.newsletter_patterns` (lines 40-45). -/
def newsletter_patterns : List (List (List RItem)) :=
  [wordAlts [litSeq "newsletter", litSeq "digest", litSeq "weekly",
     litSeq "monthly", litSeq "daily", litSeq "update", litSeq "roundup"],
   wordAlts [litSeq "unsubscribe",
     litSeq "manage" ++ wsPlus :: litSeq "preferences",
     litSeq "view" ++ wsPlus :: litSeq "in" ++ wsPlus :: litSeq "browser"],
   [litSeq "@newsletter.", litSeq "@digest.", litSeq "@updates.",
    litSeq "@news.", litSeq "@mail.", litSeq "@email."],
   wordAlts [litSeq "tech" ++ wsPlus :: litSeq "news",
     litSeq "industry" ++ wsPlus :: litSeq "news",
     litSeq "latest" ++ wsPlus :: litSeq "news"]]

/-- `self.meeting_patterns` (lines 47-52). -/
def meeting_patterns : List (List (List RItem)) :=
  [wordAlts [litSeq "meeting", litSeq "schedule", litSeq "calendar",
     litSeq "appointment", litSeq "call", litSeq "conference"],
   wordAlts [litSeq "available", litSeq "availability",
     litSeq "free" ++ wsPlus :: litSeq "time",
     litSeq "book" ++ wsPlus :: litSeq "time"],
   wordAlts [litSeq "zoom", litSeq "teams",
     litSeq "google" ++ wsPlus :: litSeq "meet",
     litSeq "webinar", litSeq "session"],
   wordAlts [litSeq "let" ++ RItem.opt apos :: litSeq "s" ++ wsPlus :: litSeq "meet",
     litSeq "let" ++ RItem.opt apos :: litSeq "s" ++ wsPlus :: litSeq "talk",
     litSeq "let" ++ RItem.opt apos :: litSeq "s" ++ wsPlus :: litSeq "discuss",
     litSeq "let" ++ RItem.opt apos :: litSeq "s" ++ wsPlus :: litSeq "schedule"]]

/-- `self.important_patterns` (lines 54-59). -/
def important_patterns : List (List (List RItem)) :=
  [wordAlts [litSeq "urgent", litSeq "important",
     litSeq "action" ++ wsPlus :: litSeq "required",
     litSeq "deadline", litSeq "expire" ++ [RItem.opt 's']],
   wordAlts [litSeq "verify", litSeq "verification", litSeq "confirm",
     litSeq "security", litSeq "alert"],
   wordAlts [litSeq "payment", litSeq "invoice", litSeq "bill",
     litSeq "account", litSeq "suspended"],
   wordAlts [litSeq "login", litSeq "password", litSeq "access",
     litSeq "unauthorized"]]

/-- `self.personal_patterns` (lines 61-65). -/
def personal_patterns : List (List (List RItem)) :=
  [wordAlts [litSeq "happy" ++ wsPlus :: litSeq "birthday",
     litSeq "congratulations", litSeq "family", litSeq "mom", litSeq "dad"],
   [litSeq "@gmail.com" ++ [RItem.eos], litSeq "@yahoo.com" ++ [RItem.eos],
    litSeq "@hotmail.com" ++ [RItem.eos], litSeq "@icloud.com" ++ [RItem.eos]],
   wordAlts [litSeq "love", litSeq "miss",
     litSeq "see" ++ wsPlus :: litSeq "you",
     litSeq "can" ++ RItem.opt apos :: litSeq "t" ++ wsPlus :: litSeq "wait"]]

/-- `_count_patterns` (lines 116-122): how many of the patterns match the
text. -/
def count_patterns (text : List Char) (patterns : List (List (List RItem))) : Nat :=
  patterns.foldl (fun count p => if patMatches p text then count + 1 else count) 0

/-! ## HybridEmailCategorizerAgent.rule_based_categorize (lines 67-114) -/

/-- The lowercased concatenation `f"{subject} {sender} {snippet}"`. -/
def rb_all_text (e : EmailData) : List Char :=
  (pyLower (e.subject.getD "") ++ " " ++ pyLower (e.sender.getD "") ++ " " ++
    pyLower (e.snippet.getD "")).data

/-- The Promotions score: pattern matches plus the subject-keyword boost
(lines 78, 91-92). -/
def promotions_score (e : EmailData) : Nat :=
  count_patterns (rb_all_text e) promotion_patterns +
    (if ["%", "off", "free", "sale", "offer"].any
        (fun k => pyContains (pyLower (e.subject.getD "")) k) then 2 else 0)

/-- The Newsletters score: pattern matches plus the sender-keyword boost
(lines 79, 87-88). -/
def newsletters_score (e : EmailData) : Nat :=
  count_patterns (rb_all_text e) newsletter_patterns +
    (if ["newsletter", "digest", "noreply", "no-reply", "updates"].any
        (fun k => pyContains (pyLower (e.sender.getD "")) k) then 2 else 0)

/-- The Meetings score: pattern matches plus the subject-keyword boost
(lines 80, 95-96). -/
def meetings_score (e : EmailData) : Nat :=
  count_patterns (rb_all_text e) meeting_patterns +
    (if ["meeting", "schedule", "calendar", "invite"].any
        (fun k => pyContains (pyLower (e.subject.getD "")) k) then 2 else 0)

/-- The Important score: pattern matches plus the subject-keyword boost
(lines 81, 99-100). -/
def important_score (e : EmailData) : Nat :=
  count_patterns (rb_all_text e) important_patterns +
    (if ["urgent", "action required", "verify", "security"].any
        (fun k => pyContains (pyLower (e.subject.getD "")) k) then 2 else 0)

/-- The Personal score (line 82; no boost). -/
def personal_score (e : EmailData) : Nat :=
  count_patterns (rb_all_text e) personal_patterns

/-- The `scores` dict after the boosts, in its insertion order
(lines 77-100). -/
def rule_based_scores (e : EmailData) : List (String × Nat) :=
  [("Promotions", promotions_score e), ("Newsletters", newsletters_score e),
   ("Meetings", meetings_score e), ("Important", important_score e),
   ("Personal", personal_score e)]

/-- `max(scores.values())`. -/
def maxScore : List (String × Nat) → Nat
  | [] => 0
  | p :: rest => Nat.max p.2 (maxScore rest)

/-- The `for category, score in scores.items()` loop (lines 110-112):
first key whose score equals `m`. -/
def firstWithScore : List (String × Nat) → Nat → Option String
  | [], _ => none
  | (c, s) :: rest, m => if s = m then some c else firstWithScore rest m

/-- `rule_based_categorize` (lines 67-114). -/
def rule_based_categorize (e : EmailData) : String :=
  let scores := rule_based_scores e
  let max_score := maxScore scores
  if max_score < 2 then "uncertain"
  else
    match firstWithScore scores max_score with
    | some c => c
    | none => "uncertain"

/-! ## Claims C6 and C9 -/

/-- The maximum of the five scores is attained by one of them. -/
lemma scores_attained (e : EmailData) :
    promotions_score e = maxScore (rule_based_scores e) ∨
    newsletters_score e = maxScore (rule_based_scores e) ∨
    meetings_score e = maxScore (rule_based_scores e) ∨
    important_score e = maxScore (rule_based_scores e) ∨
    personal_score e = maxScore (rule_based_scores e) := by
  have hm : maxScore (rule_based_scores e) =
      (promotions_score e).max ((newsletters_score e).max
        ((meetings_score e).max ((important_score e).max (personal_score e)))) := by
    simp [rule_based_scores, maxScore]
  rw [hm]
  rcases max_choice (important_score e) (personal_score e) with h4 | h4 <;>
    rcases max_choice (meetings_score e)
      ((important_score e).max (personal_score e)) with h3 | h3 <;>
    rcases max_choice (newsletters_score e)
      ((meetings_score e).max ((important_score e).max (personal_score e))) with h2 | h2 <;>
    rcases max_choice (promotions_score e)
      ((newsletters_score e).max ((meetings_score e).max
        ((important_score e).max (personal_score e)))) with h1 | h1 <;>
    simp_all

/-- On the five-entry score list, the selection loop returns the first
category (in insertion order) whose score equals `m`, provided some score
equals `m`. -/
lemma firstWithScore5 (a b c d f m : Nat)
    (hatt : a = m ∨ b = m ∨ c = m ∨ d = m ∨ f = m) :
    firstWithScore
      [("Promotions", a), ("Newsletters", b), ("Meetings", c),
       ("Important", d), ("Personal", f)] m =
      some (if a = m then "Promotions" else if b = m then "Newsletters"
        else if c = m then "Meetings" else if d = m then "Important"
        else "Personal") := by
  by_cases h1 : a = m
  · simp [firstWithScore, h1]
  · by_cases h2 : b = m
    · simp [firstWithScore, h1, h2]
    · by_cases h3 : c = m
      · simp [firstWithScore, h1, h2, h3]
      · by_cases h4 : d = m
        · simp [firstWithScore, h1, h2, h3, h4]
        · have h5 : f = m := by tauto
          simp [firstWithScore, h1, h2, h3, h4, h5]

/-- The category selected by the ordered if-chain carries the score `m`. -/
lemma pick5_mem (a b c d f m : Nat)
    (hatt : a = m ∨ b = m ∨ c = m ∨ d = m ∨ f = m) :
    ((if a = m then "Promotions" else if b = m then "Newsletters"
        else if c = m then "Meetings" else if d = m then "Important"
        else "Personal"), m) ∈
      [("Promotions", a), ("Newsletters", b), ("Meetings", c),
       ("Important", d), ("Personal", f)] := by
  by_cases h1 : a = m
  · subst h1; simp
  · by_cases h2 : b = m
    · subst h2; simp [h1]
    · by_cases h3 : c = m
      · subst h3; simp [h1, h2]
      · by_cases h4 : d = m
        · subst h4; simp [h1, h2, h3]
        · have h5 : f = m := by tauto
          subst h5; simp [h1, h2, h3, h4]

/-- The selected category is never the sentinel. -/
lemma pick5_ne_uncertain (a b c d _f m : Nat) :
    (if a = m then "Promotions" else if b = m then "Newsletters"
      else if c = m then "Meetings" else if d = m then "Important"
      else "Personal") ≠ "uncertain" := by
  split_ifs <;> decide

/-- `rule_based_categorize` equals the ordered if-chain over the five
scores whenever the maximum clears the threshold. -/
lemma rbc_eq_pick (e : EmailData)
    (hge : 2 ≤ maxScore (rule_based_scores e)) :
    rule_based_categorize e =
      (if promotions_score e = maxScore (rule_based_scores e) then "Promotions"
       else if newsletters_score e = maxScore (rule_based_scores e) then "Newsletters"
       else if meetings_score e = maxScore (rule_based_scores e) then "Meetings"
       else if important_score e = maxScore (rule_based_scores e) then "Important"
       else "Personal") := by
  have hatt := scores_attained e
  have hfw := firstWithScore5 (promotions_score e) (newsletters_score e)
    (meetings_score e) (important_score e) (personal_score e)
    (maxScore (rule_based_scores e)) hatt
  simp only [rule_based_categorize]
  rw [if_neg (by omega)]
  calc (match firstWithScore (rule_based_scores e) (maxScore (rule_based_scores e)) with
         | some c => c
         | none => "uncertain")
      = (match firstWithScore
            [("Promotions", promotions_score e), ("Newsletters", newsletters_score e),
             ("Meetings", meetings_score e), ("Important", important_score e),
             ("Personal", personal_score e)] (maxScore (rule_based_scores e)) with
         | some c => c
         | none => "uncertain") := rfl
    _ = _ := by rw [hfw]

/-- Claim C6: `rule_based_categorize` returns the sentinel "uncertain"
exactly when the maximum score is below the threshold 2, and otherwise
returns a category whose score equals that maximum. -/
theorem C6_uncertain_threshold (e : EmailData) :
    (rule_based_categorize e = "uncertain" ↔
      maxScore (rule_based_scores e) < 2) ∧
    (2 ≤ maxScore (rule_based_scores e) →
      (rule_based_categorize e, maxScore (rule_based_scores e)) ∈
        rule_based_scores e) := by
  by_cases hlt : maxScore (rule_based_scores e) < 2
  · have hrbc : rule_based_categorize e = "uncertain" := by
      simp only [rule_based_categorize]
      rw [if_pos hlt]
    exact ⟨⟨fun _ => hlt, fun _ => hrbc⟩, fun h => absurd hlt (by omega)⟩
  · have hge : 2 ≤ maxScore (rule_based_scores e) := by omega
    have hrbc := rbc_eq_pick e hge
    constructor
    · constructor
      · intro h
        exact absurd (hrbc ▸ h)
          (pick5_ne_uncertain (promotions_score e) (newsletters_score e)
            (meetings_score e) (important_score e) (personal_score e)
            (maxScore (rule_based_scores e)))
      · intro h
        exact absurd h hlt
    · intro _
      rw [hrbc]
      exact pick5_mem (promotions_score e) (newsletters_score e)
        (meetings_score e) (important_score e) (personal_score e)
        (maxScore (rule_based_scores e)) (scores_attained e)

/-- A promotional record whose maximum score clears the threshold. -/
def c6_email : EmailData := { subject := some "sale" }

/-- Witness for C6 at a concrete record. -/
theorem C6_uncertain_threshold_witness :
    2 ≤ maxScore (rule_based_scores c6_email) ∧
      (rule_based_categorize c6_email, maxScore (rule_based_scores c6_email)) ∈
        rule_based_scores c6_email :=
  ⟨by decide, (C6_uncertain_threshold c6_email).2 (by decide)⟩

/-- Claim C9: on a tie at the maximum (threshold cleared), the classifier
deterministically returns the first tying category in the insertion order
Promotions, Newsletters, Meetings, Important, Personal. -/
theorem C9_tie_break_order (e : EmailData)
    (_htie : ∃ c₁ c₂ : String, c₁ ≠ c₂ ∧
      (c₁, maxScore (rule_based_scores e)) ∈ rule_based_scores e ∧
      (c₂, maxScore (rule_based_scores e)) ∈ rule_based_scores e)
    (hge : 2 ≤ maxScore (rule_based_scores e)) :
    rule_based_categorize e =
      (if promotions_score e = maxScore (rule_based_scores e) then "Promotions"
       else if newsletters_score e = maxScore (rule_based_scores e) then "Newsletters"
       else if meetings_score e = maxScore (rule_based_scores e) then "Meetings"
       else if important_score e = maxScore (rule_based_scores e) then "Important"
       else "Personal") :=
  rbc_eq_pick e hge

/-- A record on which Meetings and Important tie at the maximum score. -/
def c9_email : EmailData := { subject := some "urgent meeting" }

/-- Witness for C9: on the tie between Meetings and Important the first in
insertion order, Meetings, wins. -/
theorem C9_tie_break_order_witness :
    rule_based_categorize c9_email =
      (if promotions_score c9_email = maxScore (rule_based_scores c9_email) then "Promotions"
       else if newsletters_score c9_email = maxScore (rule_based_scores c9_email) then "Newsletters"
       else if meetings_score c9_email = maxScore (rule_based_scores c9_email) then "Meetings"
       else if important_score c9_email = maxScore (rule_based_scores c9_email) then "Important"
       else "Personal") ∧
      rule_based_categorize c9_email = "Meetings" :=
  ⟨C9_tie_break_order c9_email
    ⟨"Meetings", "Important", by decide, by decide, by decide⟩ (by decide),
   by decide⟩

/-! ## The model-reply fallback classifier (`hybrid_agents.py`, lines 124-192)

The classifier's only inputs from the outside world are whether a client
is configured and the outcome of the completion call: either a reply text
or a raised transport/provider error, embedded as `Except`. -/

/-- The category enumeration (line 31, with `EMAIL_CATEGORIES` unset). -/
def email_categories : List String :=
  ["Important", "Newsletters", "Promotions", "Meetings", "Personal"]

/-- `openai_fallback` (lines 163-192): strip the reply, return it when it
is an enumerated category, otherwise the default; any error (and an
unconfigured client) yields the default. -/
def openai_fallback (client_available : Bool)
    (call : Except String String) : String :=
  if !client_available then "Important"
  else
    match call with
    | Except.error _ => "Important"
    | Except.ok content =>
        let category := pyStrip content
        if email_categories.contains category then category else "Important"

/-- `gemini_categorize` (lines 124-161): same parse of the reply; a raised
error falls through to `openai_fallback` rather than returning directly. -/
def gemini_categorize (gemini_available openai_available : Bool)
    (gcall ocall : Except String String) : String :=
  if !gemini_available then "Important"
  else
    match gcall with
    | Except.error _ => openai_fallback openai_available ocall
    | Except.ok text =>
        let category := pyStrip text
        if email_categories.contains category then category else "Important"

/-! ## OllamaEmailCategorizerAgent (`ollama_agents.py`, lines 26-119)

The realtime monitor's classifier.  `_call_ollama` swallows its own
transport errors and returns the empty string for them, and
`categorize_email` title-cases the reply, fuzzy-maps name variants, and
falls back to a content-keyword scan of the email text. -/

/-- Python `s[:n]`. -/
def pyTake (n : Nat) (s : String) : String := String.mk (s.data.take n)

/-- Python `s.title()` (ASCII): the first letter after a non-letter is
uppercased, every other letter lowercased. -/
def pyTitleGo : Bool → List Char → List Char
  | _, [] => []
  | prevAlpha, c :: cs =>
      if c.isAlpha then
        (if prevAlpha then c.toLower else c.toUpper) :: pyTitleGo true cs
      else c :: pyTitleGo false cs

/-- Python `s.title()`. -/
def pyTitle (s : String) : String := String.mk (pyTitleGo false s.data)

/-- `_call_ollama` (lines 26-54): the stripped reply text on HTTP 200; the
empty string when the request raises or returns another status (the
exception is caught inside this helper). -/
def call_ollama (call : Except String String) : String :=
  match call with
  | Except.ok resp => pyStrip resp
  | Except.error _ => ""

/-- The variant mapping of `categorize_email` (lines 86-96): fuzzy-match
the title-cased reply onto category names. -/
def ollama_variant_map (category : String) : String :=
  let lower := pyLower category
  if pyContains lower "newsletter" || pyContains lower "news" then "Newsletters"
  else if pyContains lower "promotion" || pyContains lower "promo" then "Promotions"
  else if pyContains lower "meeting" || pyContains lower "schedule" then "Meetings"
  else if pyContains lower "important" || pyContains lower "urgent" then "Important"
  else if pyContains lower "personal" then "Personal"
  else category

/-- The content-keyword fallback of `categorize_email` (lines 100-115). -/
def ollama_keyword_fallback (all_text : String) : String :=
  if ["offer", "discount", "sale", "%", "buy", "shop"].any
      (fun w => pyContains all_text w) then "Promotions"
  else if ["newsletter", "digest", "weekly", "update"].any
      (fun w => pyContains all_text w) then "Newsletters"
  else if ["meeting", "schedule", "calendar", "availability"].any
      (fun w => pyContains all_text w) then "Meetings"
  else if ["urgent", "important", "action required", "verify"].any
      (fun w => pyContains all_text w) then "Important"
  else if ["birthday", "family", "personal"].any
      (fun w => pyContains all_text w) then "Personal"
  else "Important"

/-- The lowercased `f"{subject} {sender} {snippet}"` over the truncated
fields (lines 60-62, 102). -/
def ollama_all_text (e : EmailData) : String :=
  pyLower (pyTake 100 (e.subject.getD "") ++ " " ++
    pyTake 50 (e.sender.getD "") ++ " " ++ pyTake 200 (e.snippet.getD ""))

/-- `OllamaEmailCategorizerAgent.categorize_email` (lines 56-119): strip
and title-case the reply, fuzzy-map it, return it when it is an enumerated
category, otherwise scan the email text for content keywords; the outer
exception handler returns "Important", so the function is total. -/
def ollama_categorize_email (e : EmailData) (call : Except String String) : String :=
  let response := call_ollama call
  let raw_response := pyStrip response
  let category := ollama_variant_map (pyTitle raw_response)
  if email_categories.contains category then category
  else ollama_keyword_fallback (ollama_all_text e)

/-! ## Claim C7 -/

/-- A promotional email used for the transport-error path. -/
def c7_email : EmailData := { subject := some "Big sale offer" }

/-- Claim C7 is false as stated, on both cited classifiers.  Hybrid tier:
the reply "Personal\n" is not literally an enumerated category, so the
claim requires the default "Important", but `openai_fallback` strips the
reply and returns "Personal".  Ollama tier: the reply "personal" is not an
enumerated category either, yet title-casing returns "Personal"; and on a
transport error the classifier returns the content-keyword category of the
email ("Promotions" for a sale email), not the fixed default. -/
theorem C7_counterexample :
    (email_categories.contains "Personal\n" = false ∧
      openai_fallback true (Except.ok "Personal\n") = "Personal") ∧
    (email_categories.contains "personal" = false ∧
      ollama_categorize_email ({ } : EmailData) (Except.ok "personal") =
        "Personal") ∧
    ollama_categorize_email c7_email (Except.error "connection refused") =
      "Promotions" := by
  decide

/-- The keyword fallback always picks an enumerated category. -/
lemma ollama_keyword_fallback_mem (all_text : String) :
    ollama_keyword_fallback all_text ∈ email_categories := by
  unfold ollama_keyword_fallback
  split_ifs <;> decide

/-- Claim C7 amended, covering both cited classifiers.  Hybrid tier
(`gemini_categorize`/`openai_fallback`): the reply is whitespace-stripped
before the comparison - the stripped reply is returned exactly when it is
an enumerated category and the default "Important" otherwise; on a
transport or provider error the OpenAI fallback returns the default and
the Gemini tier delegates the error to the OpenAI fallback.  Ollama tier
(`categorize_email`): the reply is stripped, title-cased and fuzzy-mapped
onto category names; an exact enumerated-category reply is returned, the
result is always one of the enumerated categories, and a transport error
(which surfaces as the empty reply) is answered with the content-keyword
category of the email text, with "Important" only as the final default.
No error escapes any of the classifiers, which is expressed by every
embedding being a total function into `String`. -/
theorem C7_amended_fallback_classifier (avail : Bool)
    (call : Except String String) :
    (∀ r : String, call = Except.ok r → avail = true →
      openai_fallback avail call =
        (if email_categories.contains (pyStrip r) then pyStrip r
         else "Important")) ∧
    (∀ r : String, email_categories.contains r = true →
      openai_fallback true (Except.ok r) = r) ∧
    (∀ msg : String, call = Except.error msg →
      openai_fallback avail call = "Important") ∧
    (∀ msg : String, gemini_categorize true avail (Except.error msg) call =
      openai_fallback avail call) ∧
    (openai_fallback avail call = "Important" ∨
      ∃ r : String, call = Except.ok r ∧
        openai_fallback avail call = pyStrip r ∧
        email_categories.contains (pyStrip r) = true) ∧
    (∀ e : EmailData, ollama_categorize_email e call ∈ email_categories) ∧
    (∀ (e : EmailData) (r : String), email_categories.contains r = true →
      ollama_categorize_email e (Except.ok r) = r) ∧
    (∀ (e : EmailData) (msg : String),
      ollama_categorize_email e (Except.error msg) =
        ollama_keyword_fallback (ollama_all_text e)) := by
  refine ⟨?_, ?_, ?_, ?_, ?_, ?_, ?_, ?_⟩
  · intro r hr ha
    subst hr ha
    simp [openai_fallback]
  · intro r hr
    have hmem : r ∈ email_categories := by simpa using hr
    have hs : pyStrip r = r := by
      fin_cases hmem <;> decide
    simp [openai_fallback, hs, hmem]
  · intro msg hmsg
    subst hmsg
    cases avail <;> simp [openai_fallback]
  · intro msg
    simp [gemini_categorize]
  · cases avail with
    | false => exact Or.inl (by simp [openai_fallback])
    | true =>
        cases call with
        | error msg => exact Or.inl (by simp [openai_fallback])
        | ok r =>
            by_cases hc : email_categories.contains (pyStrip r) = true
            · have hmem : pyStrip r ∈ email_categories := by simpa using hc
              exact Or.inr ⟨r, rfl, by simp [openai_fallback, hmem], hc⟩
            · refine Or.inl ?_
              have hnot : pyStrip r ∉ email_categories := by
                simpa using hc
              simp [openai_fallback, hnot]
  · intro e
    by_cases hc : email_categories.contains
        (ollama_variant_map (pyTitle (pyStrip (call_ollama call)))) = true
    · have hmem : ollama_variant_map (pyTitle (pyStrip (call_ollama call))) ∈
          email_categories := by simpa using hc
      have heq : ollama_categorize_email e call =
          ollama_variant_map (pyTitle (pyStrip (call_ollama call))) := by
        simp [ollama_categorize_email, hmem]
      rw [heq]
      exact hmem
    · have hnot : ollama_variant_map (pyTitle (pyStrip (call_ollama call))) ∉
          email_categories := by simpa using hc
      have heq : ollama_categorize_email e call =
          ollama_keyword_fallback (ollama_all_text e) := by
        simp [ollama_categorize_email, hnot]
      rw [heq]
      exact ollama_keyword_fallback_mem _
  · intro e r hr
    have hmem : r ∈ email_categories := by simpa using hr
    fin_cases hmem <;> rfl
  · intro e msg
    rfl

/-- Witness for the amended C7 at concrete replies, on both tiers. -/
theorem C7_amended_fallback_classifier_witness :
    openai_fallback true (Except.ok "Meetings") = "Meetings" ∧
      openai_fallback true (Except.error "timeout") = "Important" ∧
      gemini_categorize true true (Except.error "quota")
        (Except.ok " Sports ") = openai_fallback true (Except.ok " Sports ") ∧
      ollama_categorize_email c7_email (Except.ok "Meetings") = "Meetings" ∧
      ollama_categorize_email c7_email (Except.error "down") =
        ollama_keyword_fallback (ollama_all_text c7_email) :=
  ⟨(C7_amended_fallback_classifier true (Except.ok "Meetings")).2.1
      "Meetings" (by decide),
   (C7_amended_fallback_classifier true (Except.error "timeout")).2.2.1
      "timeout" rfl,
   (C7_amended_fallback_classifier true (Except.ok " Sports ")).2.2.2.1
      "quota",
   (C7_amended_fallback_classifier true (Except.ok "Meetings")).2.2.2.2.2.2.1
      c7_email "Meetings" (by decide),
   (C7_amended_fallback_classifier true (Except.error "down")).2.2.2.2.2.2.2
      c7_email "down"⟩

/-! ## The monitoring loop (`realtime_monitor.py`, lines 97-135)

One loop iteration either completes its check (resetting the error
counter and sleeping the polling interval) or raises (incrementing the
counter, stopping at `max_errors = 5`, and otherwise sleeping
`min(60, polling_interval * 2)`).  `monitor_step` maps the previous
consecutive-error count and the iteration's outcome to the new count,
whether the loop continues, and the seconds slept before the next
iteration (0 when it stops). -/

def max_errors : Nat := 5

/-- One iteration of `_monitoring_loop`, given the outcome of
`_check_for_new_emails`/`_process_new_emails` (`ok = true` means no
exception was raised). -/
def monitor_step (polling_interval error_count : Nat) (ok : Bool) :
    Nat × Bool × Nat :=
  if ok then (0, true, polling_interval)
  else
    let count := error_count + 1
    if max_errors ≤ count then (count, false, 0)
    else (count, true, min 60 (polling_interval * 2))

/-- The loop run on a list of iteration outcomes: the sequence of
`(error_count, continues, sleep)` results of the iterations that actually
execute (the run stops early when an iteration breaks the loop). -/
def monitor_run (polling_interval : Nat) :
    Nat → List Bool → List (Nat × Bool × Nat)
  | _, [] => []
  | error_count, o :: os =>
      let r := monitor_step polling_interval error_count o
      r :: (if r.2.1 then monitor_run polling_interval r.1 os else [])

/-! ## Claim C8 -/

/-- Claim C8 is false as stated: with a polling interval of 40 seconds, a
first error is below the threshold, yet the loop waits
`min(60, 2 * 40) = 60` seconds, not the 80 seconds the claim demands. -/
theorem C8_counterexample :
    monitor_step 40 0 false = (1, true, 60) ∧ (60 : Nat) ≠ 2 * 40 := by
  decide

/-- Invariant giving the bound on consecutive failures: starting below the
threshold, every executed iteration keeps its error count at most 5. -/
lemma monitor_run_count_le (polling_interval : Nat) :
    ∀ (error_count : Nat) (os : List Bool), error_count + 1 ≤ max_errors →
      ∀ r ∈ monitor_run polling_interval error_count os, r.1 ≤ max_errors
  | _, [], _ => by intro r hr; simp [monitor_run] at hr
  | error_count, o :: os, hle => by
      intro r hr
      simp only [monitor_run, List.mem_cons] at hr
      rcases hr with rfl | hr
      · cases o with
        | false =>
            simp only [monitor_step, Bool.false_eq_true, if_false]
            split <;> simpa using hle
        | true => simp [monitor_step]
      · rcases o with _ | _
        · simp only [monitor_step, Bool.false_eq_true, if_false] at hr
          split at hr
          · simp at hr
          · simp only [if_pos rfl] at hr
            exact monitor_run_count_le polling_interval _ os (by omega) r hr
        · simp only [monitor_step, if_pos rfl] at hr
          exact monitor_run_count_le polling_interval _ os
            (by simp [monitor_step, max_errors]) r hr

/-- Claim C8 amended: the consecutive-error counter resets on success and
increments on failure; the loop stops once the count reaches 5, so no
executed iteration ever carries a count above 5 (no sixth consecutive
failure executes); and below the threshold an error is followed by a wait
of `min(60, 2 * interval)` seconds - exactly twice the polling interval
whenever the interval is at most 30 seconds (as in every configuration in
the repository). -/
theorem C8_amended_monitor_loop (polling_interval error_count : Nat)
    (os : List Bool) :
    (monitor_step polling_interval error_count true).1 = 0 ∧
    (monitor_step polling_interval error_count false).1 = error_count + 1 ∧
    (error_count + 1 < max_errors →
      monitor_step polling_interval error_count false =
        (error_count + 1, true, min 60 (polling_interval * 2))) ∧
    (max_errors ≤ error_count + 1 →
      monitor_step polling_interval error_count false =
        (error_count + 1, false, 0)) ∧
    (∀ r ∈ monitor_run polling_interval 0 os, r.1 ≤ max_errors) ∧
    (polling_interval ≤ 30 →
      min 60 (polling_interval * 2) = 2 * polling_interval) := by
  refine ⟨by simp [monitor_step], ?_, ?_, ?_, ?_, ?_⟩
  · simp only [monitor_step, Bool.false_eq_true, if_false]
    split <;> rfl
  · intro h
    simp only [monitor_step, Bool.false_eq_true, if_false]
    rw [if_neg (by omega)]
  · intro h
    simp only [monitor_step, Bool.false_eq_true, if_false]
    rw [if_pos h]
  · exact monitor_run_count_le polling_interval 0 os
      (by simp [max_errors])
  · intro h
    omega

/-- Witness for the amended C8: five straight failures at the default
30-second interval; the fifth iteration stops the loop. -/
theorem C8_amended_monitor_loop_witness :
    (monitor_step 30 0 true).1 = 0 ∧
      (2 + 1 < max_errors →
        monitor_step 30 2 false = (3, true, min 60 (30 * 2))) ∧
      (∀ r ∈ monitor_run 30 0 [false, false, false, false, false, false],
        r.1 ≤ max_errors) ∧
      (30 ≤ 30 → min 60 (30 * 2) = 2 * 30) :=
  ⟨(C8_amended_monitor_loop 30 0 []).1,
   (C8_amended_monitor_loop 30 2 []).2.2.1,
   (C8_amended_monitor_loop 30 0 [false, false, false, false, false, false]).2.2.2.2.1,
   (C8_amended_monitor_loop 30 0 []).2.2.2.2.2⟩

/-! ## Callback-data encoding and parsing

Buttons are labelled `f"{action}_{email_id}"`
(`telegram_bot.py`, lines 124-156) and `_handle_callback_query`
(`telegram_handler.py`, lines 128-176) splits on "_" and takes parts 0
and 1. -/

/-- Python `s.split('_')` over the character list. -/
def splitUnderscore : List Char → List (List Char)
  | [] => [[]]
  | c :: cs =>
      if c = '_' then [] :: splitUnderscore cs
      else
        match splitUnderscore cs with
        | [] => [[c]]
        | p :: ps => (c :: p) :: ps

/-- `f"{action}_{email_id}"`. -/
def make_callback_data (action email_id : List Char) : List Char :=
  action ++ '_' :: email_id

/-- `parts[0]` of the handler's parse. -/
def parse_action (data : List Char) : List Char :=
  (splitUnderscore data).headD []

/-- `parts[1] if len(parts) > 1 else None` of the handler's parse. -/
def parse_email_id (data : List Char) : Option (List Char) :=
  (splitUnderscore data)[1]?

/-! ## Claim C10 -/

lemma splitUnderscore_ne_nil (l : List Char) : splitUnderscore l ≠ [] := by
  cases l with
  | nil => simp [splitUnderscore]
  | cons c cs =>
      simp only [splitUnderscore]
      split
      · simp
      · split <;> simp

/-- The first part of a split is the prefix before the first underscore. -/
lemma splitUnderscore_head (l : List Char) :
    ∃ rest, splitUnderscore l =
      l.takeWhile (fun c => !(c == '_')) :: rest := by
  induction l with
  | nil => exact ⟨[], rfl⟩
  | cons c cs ih =>
      by_cases hc : c = '_'
      · subst hc
        refine ⟨splitUnderscore cs, ?_⟩
        simp [splitUnderscore, List.takeWhile]
      · obtain ⟨rest, hrest⟩ := ih
        refine ⟨rest, ?_⟩
        simp only [splitUnderscore, if_neg hc, hrest]
        have hb : (!(c == '_')) = true := by simp [hc]
        simp [List.takeWhile, hb]

/-- Splitting the encoded data peels off the action when the action has no
underscore. -/
lemma splitUnderscore_append (action email_id : List Char)
    (h : '_' ∉ action) :
    splitUnderscore (action ++ '_' :: email_id) =
      action :: splitUnderscore email_id := by
  induction action with
  | nil => simp [splitUnderscore]
  | cons c cs ih =>
      have hc : c ≠ '_' := fun hcc => h (hcc ▸ List.mem_cons_self c cs)
      have hcs : '_' ∉ cs := fun hm => h (List.mem_cons_of_mem c hm)
      have ih2 : splitUnderscore (cs ++ '_' :: email_id) =
          cs :: splitUnderscore email_id := ih hcs
      simp only [List.cons_append, splitUnderscore, if_neg hc]
      rw [List.append_eq_has_append, ih2]

/-- A list is its own underscore-free prefix exactly when it has no
underscore. -/
lemma takeWhile_eq_self_iff_no_underscore (l : List Char) :
    l.takeWhile (fun c => !(c == '_')) = l ↔ '_' ∉ l := by
  rw [List.takeWhile_eq_self_iff]
  constructor
  · intro hall hm
    have := hall _ hm
    simp at this
  · intro h x hx
    simp only [Bool.not_eq_eq_eq_not, Bool.not_true, beq_eq_false_iff_ne,
      ne_eq]
    exact fun hxe => h (hxe ▸ hx)

/-- Claim C10: for an action verb without an underscore, parsing the
encoded callback data always recovers the action; the email id is
recovered truncated at its first underscore, hence exactly when the id
contains no underscore. -/
theorem C10_callback_round_trip (action email_id : List Char)
    (h : '_' ∉ action) :
    parse_action (make_callback_data action email_id) = action ∧
    parse_email_id (make_callback_data action email_id) =
      some (email_id.takeWhile (fun c => !(c == '_'))) ∧
    (parse_email_id (make_callback_data action email_id) = some email_id ↔
      '_' ∉ email_id) := by
  obtain ⟨rest, hrest⟩ := splitUnderscore_head email_id
  have hsplit : splitUnderscore (make_callback_data action email_id) =
      action :: splitUnderscore email_id :=
    splitUnderscore_append action email_id h
  refine ⟨?_, ?_, ?_⟩
  · simp [parse_action, hsplit]
  · simp [parse_email_id, hsplit, hrest]
  · rw [parse_email_id, hsplit, hrest]
    simp only [List.getElem?_cons_succ, List.getElem?_cons_zero,
      Option.some.injEq]
    exact takeWhile_eq_self_iff_no_underscore email_id

/-- Witness for C10: the "reply" button for an id without underscores
round-trips, and an id with an underscore is truncated. -/
theorem C10_callback_round_trip_witness :
    parse_action (make_callback_data ("reply").data ("abc123").data) =
        ("reply").data ∧
      parse_email_id (make_callback_data ("reply").data ("abc123").data) =
        some ("abc123").data ∧
      parse_email_id (make_callback_data ("reply").data ("ab_9").data) =
        some ("ab").data :=
  ⟨(C10_callback_round_trip ("reply").data ("abc123").data (by decide)).1,
   ((C10_callback_round_trip ("reply").data ("abc123").data (by decide)).2.2).mpr
     (by decide),
   by
     have := (C10_callback_round_trip ("reply").data ("ab_9").data (by decide)).2.1
     simpa using this⟩

end EmailAgent
